import Mathlib

/-!
Verification of the loan-conversion workflow in
`nbs_customization/public/js/nbs_theme.js`.

Numbers entered into the quantity inputs are modelled as `Option ℚ`:
`none` stands for a non-numeric DOM value (where JavaScript's
`parseFloat` yields `NaN`, and `parseFloat(v) || 0` yields `0`),
`some q` for a numeric value.  Side effects performed by the script
(messages, alerts, remote calls, navigation, opening dialogs) are
reified as an `Effect` list.
-/

namespace NBS

/-- One line item of a loan waybill, as delivered by the server
(`get_pending_loan_waybills`) and consumed by the dialog renderers. -/
structure LoanItem where
  item_code : String
  description : String
  qty_loaned : ℚ
  qty_converted : ℚ
  qty_remaining : ℚ
  so_qty_remaining : Option ℚ
  max_convertible_qty : Option ℚ
  batch_no : Option String
  serial_no : Option String
  warehouse : Option String
  expiry_date : Option String
  stock_entry_detail : Option String
  deriving DecidableEq, Repr

/-- A pending loan waybill summary (one row of the selection table). -/
structure Loan where
  loan_waybill : String
  loan_date : String
  items : List LoanItem
  deriving DecidableEq, Repr

/-- The payload line built by `collect_conversion_data` for the remote
`create_delivery_note_from_loan` call. -/
structure PayloadItem where
  item_code : String
  qty : ℚ
  batch_no : Option String
  serial_no : Option String
  warehouse : Option String
  expiry_date : Option String
  loan_waybill : String
  stock_entry_detail : Option String
  deriving DecidableEq, Repr

/-- Observable side effects of the client script. -/
inductive Effect where
  /-- Call `frappe.msgprint(msg)`. -/
  | msgprint (message : String)
  /-- Call to frappe.msgprint with a title, message and indicator. -/
  | msgprintTitled (title message indicator : String)
  /-- Transient auto-dismiss alert raised by frappe.show_alert. -/
  | showAlert (message indicator : String)
  /-- Remote `frappe.call` to `create_delivery_note_from_loan` with its args. -/
  | createCall (sales_order loan_waybill : String) (items : List PayloadItem)
  /-- Navigation via `frappe.set_route("Form", doctype, docname)`. -/
  | setRoute (doctype docname : String)
  /-- Showing a new modal dialog with the given title. -/
  | openDialog (title : String)
  deriving DecidableEq, Repr

/-- JavaScript `parseFloat(v) || 0`: a non-numeric value (NaN) falls back to 0. -/
def parseOr0 (v : Option ℚ) : ℚ := v.getD 0

/-- The quantity normalization performed by the `input` handler in
`render_conversion_table` (nbs_theme.js lines 632-649), expressed as the
effective numeric value of the DOM field after the handler ran:

```js
const max = parseFloat($(this).attr("max")) || 0;
let val = parseFloat($(this).val()) || 0;
if (val > max) { val = max; $(this).val(max); ... }
if (val < 0) { $(this).val(0); }
```
-/
def clampQuantity (x : Option ℚ) (max : ℚ) : ℚ :=
  let val := parseOr0 x
  let val := if val > max then max else val
  if val < 0 then 0 else val

/-- The `input` handler itself (nbs_theme.js lines 632-649): given the
`max` attribute of the field and the raw DOM value, returns the DOM
value left in the field and the effects raised.  The DOM value is only
overwritten when a clamp fires; otherwise the raw text stays. -/
def handle_input (maxAttr : Option ℚ) (raw : Option ℚ) :
    Option ℚ × List Effect :=
  let max := parseOr0 maxAttr
  let val := parseOr0 raw
  if val > max then
    let effects :=
      [Effect.showAlert
        "Cannot convert more than maximum convertible quantity." "orange"]
    -- after `val = max`, the second check `val < 0` can still fire
    if max < 0 then (some 0, effects) else (some max, effects)
  else
    if val < 0 then (some 0, []) else (raw, [])

/-- State of the conversion (quantity-capture) dialog: whether the
modal is on screen and the DOM values of the `convert-input` fields,
one per line of the selected loan, in render order. -/
structure ConvState where
  visible : Bool
  inputs : List (Option ℚ)
  deriving DecidableEq, Repr

/-- Function `collect_conversion_data` (nbs_theme.js lines 652-675): walk the
`convert-input` fields in order, parse each value with
`parseFloat(v) || 0`, skip falsy (zero) quantities, and build a payload
line from the loan item at the same index. -/
def collect_conversion_data (loan : Loan) (inputs : List (Option ℚ)) :
    List PayloadItem :=
  (inputs.zip loan.items).filterMap fun p =>
    let qty := parseOr0 p.1
    if qty = 0 then none
    else some
      { item_code := p.2.item_code
        qty := qty
        batch_no := p.2.batch_no
        serial_no := p.2.serial_no
        warehouse := p.2.warehouse
        expiry_date := p.2.expiry_date
        loan_waybill := loan.loan_waybill
        stock_entry_detail := p.2.stock_entry_detail }

/-- The `primary_action` of `open_conversion_dialog` (nbs_theme.js lines
546-557): collect the payload; if it is empty, message the user and
return with the dialog still open; otherwise hide the dialog and invoke
`create_draft_delivery_note`, which issues the remote call. -/
def open_conversion_primary_action (so_name : String) (loan : Loan)
    (s : ConvState) : ConvState × List Effect :=
  let payload := collect_conversion_data loan s.inputs
  if payload = [] then
    (s, [Effect.msgprint "Enter at least one quantity to convert."])
  else
    ({ s with visible := false },
     [Effect.createCall so_name loan.loan_waybill payload])

/-- Callback of the `frappe.call` in `create_draft_delivery_note`
(nbs_theme.js lines 687-693): `if (!r.message) return;` then navigate
to the created Delivery Note.  `none` models a failed call / absent
message; the empty string is falsy in JavaScript. -/
def create_draft_delivery_note_callback (message : Option String) :
    List Effect :=
  match message with
  | none => []
  | some m => if m = "" then [] else [Effect.setRoute "Delivery Note" m]

/-- The submit step followed by resolution of the remote call with
`response` (`none` = failure or empty reply, `some id` = created
document id).  When the payload is empty no call is made, so no
callback runs. -/
def submit_and_resolve (so_name : String) (loan : Loan) (s : ConvState)
    (response : Option String) : ConvState × List Effect :=
  let payload := collect_conversion_data loan s.inputs
  if payload = [] then
    (s, [Effect.msgprint "Enter at least one quantity to convert."])
  else
    ({ s with visible := false },
     Effect.createCall so_name loan.loan_waybill payload ::
       create_draft_delivery_note_callback response)

/-- Server reply of `get_pending_loan_waybills`. -/
structure PendingData where
  customer : String
  sales_order : String
  loan_waybills : List Loan
  deriving DecidableEq, Repr

/-- Callback of `check_pending_loans` (nbs_theme.js lines 329-344):
`!data || !data.loan_waybills || !data.loan_waybills.length` shows the
"No Pending Loans" message (green indicator) and returns; otherwise the
selection dialog is shown. -/
def check_pending_loans_callback (r : Option PendingData) : List Effect :=
  match r with
  | none =>
    [Effect.msgprintTitled "No Pending Loans"
      "No matching pending loan waybills were found for this Sales Order."
      "green"]
  | some data =>
    if data.loan_waybills.isEmpty then
      [Effect.msgprintTitled "No Pending Loans"
        "No matching pending loan waybills were found for this Sales Order."
        "green"]
    else
      [Effect.openDialog "Pending Loan Waybills"]

/-- State of the pending-loan selection dialog: visibility, the stored
`dialog.loan_waybills`, and the index carried by the checked
`loan-select` radio button, if any. -/
structure ListDialogState where
  visible : Bool
  loan_waybills : List Loan
  checked : Option Nat
  deriving DecidableEq, Repr

/-- Function `get_selected_loan` (nbs_theme.js lines 527-534): `null` when no
radio is checked; otherwise `dialog.loan_waybills[index]` (an
out-of-range index yields `undefined`, also falsy). -/
def get_selected_loan (s : ListDialogState) : Option Loan :=
  match s.checked with
  | none => none
  | some i => s.loan_waybills[i]?

/-- The `primary_action` of `show_loan_selection_dialog` (nbs_theme.js lines
366-376): with no selection, message the user and leave the dialog as
is; otherwise hide it and open the conversion dialog. -/
def list_dialog_primary_action (s : ListDialogState) :
    ListDialogState × List Effect :=
  match get_selected_loan s with
  | none => (s, [Effect.msgprint "Please select a Loan Waybill to convert."])
  | some loan =>
    ({ s with visible := false },
     [Effect.openDialog ("Convert Loan Waybill: " ++ loan.loan_waybill)])

/-- The parent Sales Order fields read by the `refresh` handler. -/
structure SalesOrderDoc where
  name : String
  docstatus : Int
  customer : Option String
  per_delivered : ℚ
  custom_customer_delivery_note : Option String
  custom_promissory_note : Option String
  deriving DecidableEq, Repr

/-- JavaScript truthiness of an optional string field (`undefined`,
`null` and `""` are falsy). -/
def truthyStr : Option String → Bool
  | none => false
  | some s => s ≠ ""

/-- The `refresh` handler of the Sales Order form (nbs_theme.js lines
268-299): the custom buttons it adds, in order.  `docstatus !== 1`
adds nothing; the linked-document buttons are added next; the
"Check Pending Loan Waybills" button requires a truthy customer and
`per_delivered < 100`. -/
def sales_order_refresh_buttons (doc : SalesOrderDoc) : List String :=
  if doc.docstatus ≠ 1 then []
  else
    let linked :=
      (if truthyStr doc.custom_customer_delivery_note then []
       else ["Customer Delivery Note"]) ++
      (if truthyStr doc.custom_promissory_note then []
       else ["Promissory Note"])
    if ¬ truthyStr doc.customer then linked
    else if doc.per_delivered ≥ 100 then linked
    else linked ++ ["Check Pending Loan Waybills"]

/-- Helper: recognize a navigation effect. -/
def isSetRoute : Effect → Bool
  | Effect.setRoute _ _ => true
  | _ => false

/-! ### Sample data used by the witnesses -/

def sampleItem1 : LoanItem :=
  { item_code := "ITM-1", description := "Test kit", qty_loaned := 5,
    qty_converted := 2, qty_remaining := 3, so_qty_remaining := some 4,
    max_convertible_qty := some 3, batch_no := some "B1",
    serial_no := none, warehouse := some "Stores - NBS",
    expiry_date := some "2027-01-01", stock_entry_detail := some "SED-1" }

def sampleItem2 : LoanItem :=
  { item_code := "ITM-2", description := "Reagent", qty_loaned := 10,
    qty_converted := 0, qty_remaining := 10, so_qty_remaining := some 2,
    max_convertible_qty := some 2, batch_no := none,
    serial_no := some "SN-9", warehouse := some "Stores - NBS",
    expiry_date := none, stock_entry_detail := some "SED-2" }

def sampleLoan : Loan :=
  { loan_waybill := "LW-0001", loan_date := "2026-01-01",
    items := [sampleItem1, sampleItem2] }

/-! ### Claims about the quantity clamp -/

/-- C3: for every `max ≥ 0` and every input (numeric or not),
`clampQuantity` lands in `[0, max]`; a negative value is normalized to
`0`, a non-numeric value is treated as `0`, and a value above `max` is
normalized to `max`. -/
theorem clampQuantity_range (x : Option ℚ) (max : ℚ) (hmax : 0 ≤ max) :
    0 ≤ clampQuantity x max ∧ clampQuantity x max ≤ max ∧
    (parseOr0 x < 0 → clampQuantity x max = 0) ∧
    clampQuantity none max = 0 ∧
    (max < parseOr0 x → clampQuantity x max = max) := by
  refine ⟨?_, ?_, ?_, ?_, ?_⟩ <;>
    simp only [clampQuantity, parseOr0, Option.getD_none] <;>
    intros <;> split_ifs <;> linarith

theorem clampQuantity_range_witness :
    0 ≤ clampQuantity (some (-3)) 5 ∧ clampQuantity (some (-3)) 5 ≤ 5 ∧
    (parseOr0 (some (-3)) < 0 → clampQuantity (some (-3)) 5 = 0) ∧
    clampQuantity none 5 = 0 ∧
    (5 < parseOr0 (some (-3)) → clampQuantity (some (-3)) 5 = 5) :=
  clampQuantity_range (some (-3)) 5 (by norm_num)

/-- C8: `clampQuantity` is idempotent: re-clamping the clamped value
with the same `max` is the identity, for every input and every `max`. -/
theorem clampQuantity_idempotent (x : Option ℚ) (max : ℚ) :
    clampQuantity (some (clampQuantity x max)) max = clampQuantity x max := by
  simp only [clampQuantity, parseOr0, Option.getD_some]
  split_ifs <;> linarith

/-- C5: after every edit the `input` handler leaves an effective value
equal to `clampQuantity` of the raw input, so `0 ≤ value ≤ max` holds
whenever `max ≥ 0`; an edit above `max` raises exactly one transient
("orange") alert and nothing else — no exception and no rejection of
the edit. -/
theorem handle_input_invariant (maxAttr raw : Option ℚ)
    (hmax : 0 ≤ parseOr0 maxAttr) :
    parseOr0 (handle_input maxAttr raw).1
        = clampQuantity raw (parseOr0 maxAttr) ∧
    0 ≤ parseOr0 (handle_input maxAttr raw).1 ∧
    parseOr0 (handle_input maxAttr raw).1 ≤ parseOr0 maxAttr ∧
    ((handle_input maxAttr raw).2 =
      if parseOr0 maxAttr < parseOr0 raw then
        [Effect.showAlert
          "Cannot convert more than maximum convertible quantity." "orange"]
      else []) := by
  simp only [parseOr0] at hmax
  refine ⟨?_, ?_, ?_, ?_⟩ <;>
    simp only [handle_input, clampQuantity, parseOr0] <;>
    split_ifs <;>
    simp_all

theorem handle_input_invariant_witness :
    parseOr0 (handle_input (some 5) (some 7)).1
        = clampQuantity (some 7) (parseOr0 (some 5)) ∧
    0 ≤ parseOr0 (handle_input (some 5) (some 7)).1 ∧
    parseOr0 (handle_input (some 5) (some 7)).1 ≤ parseOr0 (some 5) ∧
    ((handle_input (some 5) (some 7)).2 =
      if parseOr0 (some 5) < parseOr0 (some 7) then
        [Effect.showAlert
          "Cannot convert more than maximum convertible quantity." "orange"]
      else []) :=
  handle_input_invariant (some 5) (some 7) (by norm_num [parseOr0])

/-! ### Claims about submission -/

lemma collect_nil_of_all_zero (loan : Loan) (inputs : List (Option ℚ))
    (h : ∀ v ∈ inputs, parseOr0 v = 0) :
    collect_conversion_data loan inputs = [] := by
  apply List.filterMap_eq_nil_iff.mpr
  rintro ⟨v, src⟩ hp
  have hv : v ∈ inputs := (List.of_mem_zip hp).1
  simp [h v hv]

/-- C2: from the quantity-capture dialog, submitting while every input
parses to zero changes no state and issues no remote call: the user
gets a local message and the dialog stays as it is. -/
theorem submit_all_zero_rejected (so_name : String) (loan : Loan)
    (s : ConvState) (h : ∀ v ∈ s.inputs, parseOr0 v = 0) :
    open_conversion_primary_action so_name loan s
      = (s, [Effect.msgprint "Enter at least one quantity to convert."]) := by
  simp [open_conversion_primary_action,
    collect_nil_of_all_zero loan s.inputs h]

theorem submit_all_zero_rejected_witness :
    open_conversion_primary_action "SO-0001" sampleLoan
        { visible := true, inputs := [some 0, none] }
      = ({ visible := true, inputs := [some 0, none] },
         [Effect.msgprint "Enter at least one quantity to convert."]) :=
  submit_all_zero_rejected "SO-0001" sampleLoan
    { visible := true, inputs := [some 0, none] }
    (by decide)

lemma filterMap_collect_eq (loan : Loan) (l : List (Option ℚ × LoanItem))
    (h : ∀ p ∈ l, 0 ≤ parseOr0 p.1) :
    (l.filterMap fun p =>
      let qty := parseOr0 p.1
      if qty = 0 then none
      else some
        ({ item_code := p.2.item_code
           qty := qty
           batch_no := p.2.batch_no
           serial_no := p.2.serial_no
           warehouse := p.2.warehouse
           expiry_date := p.2.expiry_date
           loan_waybill := loan.loan_waybill
           stock_entry_detail := p.2.stock_entry_detail } : PayloadItem))
      = (l.filter fun p => 0 < parseOr0 p.1).map fun p =>
          ({ item_code := p.2.item_code
             qty := parseOr0 p.1
             batch_no := p.2.batch_no
             serial_no := p.2.serial_no
             warehouse := p.2.warehouse
             expiry_date := p.2.expiry_date
             loan_waybill := loan.loan_waybill
             stock_entry_detail := p.2.stock_entry_detail } : PayloadItem) := by
  induction l with
  | nil => rfl
  | cons p l ih =>
    have hp : 0 ≤ parseOr0 p.1 := h p (by simp)
    have hl : ∀ q ∈ l, 0 ≤ parseOr0 q.1 := fun q hq => h q (by simp [hq])
    by_cases hz : parseOr0 p.1 = 0
    · simp [List.filterMap_cons, List.filter_cons, hz, ih hl]
    · have hpos : 0 < parseOr0 p.1 := lt_of_le_of_ne hp (Ne.symm hz)
      simp [List.filterMap_cons, List.filter_cons, hz, hpos, ih hl]

lemma collect_eq_filter_of_nonneg (loan : Loan) (inputs : List (Option ℚ))
    (h : ∀ v ∈ inputs, 0 ≤ parseOr0 v) :
    collect_conversion_data loan inputs =
      ((inputs.zip loan.items).filter fun p => 0 < parseOr0 p.1).map fun p =>
        { item_code := p.2.item_code
          qty := parseOr0 p.1
          batch_no := p.2.batch_no
          serial_no := p.2.serial_no
          warehouse := p.2.warehouse
          expiry_date := p.2.expiry_date
          loan_waybill := loan.loan_waybill
          stock_entry_detail := p.2.stock_entry_detail } := by
  have h' : ∀ p ∈ inputs.zip loan.items, 0 ≤ parseOr0 p.1 := by
    rintro ⟨v, src⟩ hp
    exact h v (List.of_mem_zip hp).1
  exact filterMap_collect_eq loan (inputs.zip loan.items) h'

lemma exists_zip_pair {α β : Type} (a : α) (l1 : List α) (l2 : List β)
    (hlen : l1.length = l2.length) (ha : a ∈ l1) :
    ∃ b, (a, b) ∈ l1.zip l2 := by
  induction l1 generalizing l2 with
  | nil => cases ha
  | cons x xs ih =>
    cases l2 with
    | nil => simp at hlen
    | cons y ys =>
      rcases List.mem_cons.mp ha with rfl | hmem
      · exact ⟨y, by simp⟩
      · obtain ⟨b, hb⟩ := ih ys (by simpa using hlen) hmem
        exact ⟨b, List.mem_cons_of_mem _ hb⟩

lemma collect_ne_nil_of_pos (loan : Loan) (inputs : List (Option ℚ))
    (hlen : inputs.length = loan.items.length)
    (hpos : ∃ v ∈ inputs, 0 < parseOr0 v) :
    collect_conversion_data loan inputs ≠ [] := by
  intro hnil
  obtain ⟨v, hv, hvpos⟩ := hpos
  obtain ⟨b, hpair⟩ := exists_zip_pair v inputs loan.items hlen hv
  have hne := List.filterMap_eq_nil_iff.mp hnil _ hpair
  simp only [parseOr0] at hvpos
  simp only [parseOr0] at hne
  simp at hne
  exact absurd hne hvpos.ne'

/-- C4: on submit with at least one positive quantity (all inputs
non-negative, one input per loan line), the dialog is hidden and the
remote call receives exactly the ordered positive lines, each with the
item code, the entered quantity, and batch, serial, warehouse and
expiry carried through unchanged from the source loan line. -/
theorem submit_positive_payload (so_name : String) (loan : Loan)
    (s : ConvState)
    (hlen : s.inputs.length = loan.items.length)
    (hnn : ∀ v ∈ s.inputs, 0 ≤ parseOr0 v)
    (hpos : ∃ v ∈ s.inputs, 0 < parseOr0 v) :
    open_conversion_primary_action so_name loan s
      = ({ s with visible := false },
         [Effect.createCall so_name loan.loan_waybill
           (((s.inputs.zip loan.items).filter fun p =>
               0 < parseOr0 p.1).map fun p =>
             { item_code := p.2.item_code
               qty := parseOr0 p.1
               batch_no := p.2.batch_no
               serial_no := p.2.serial_no
               warehouse := p.2.warehouse
               expiry_date := p.2.expiry_date
               loan_waybill := loan.loan_waybill
               stock_entry_detail := p.2.stock_entry_detail })]) := by
  have hne := collect_ne_nil_of_pos loan s.inputs hlen hpos
  have heq := collect_eq_filter_of_nonneg loan s.inputs hnn
  simp only [open_conversion_primary_action]
  rw [if_neg hne, heq]

theorem submit_positive_payload_witness :
    open_conversion_primary_action "SO-0001" sampleLoan
        { visible := true, inputs := [some 2, some 0] }
      = ({ visible := false, inputs := [some 2, some 0] },
         [Effect.createCall "SO-0001" sampleLoan.loan_waybill
           ((([some 2, some 0].zip sampleLoan.items).filter fun p =>
               0 < parseOr0 p.1).map fun p =>
             { item_code := p.2.item_code
               qty := parseOr0 p.1
               batch_no := p.2.batch_no
               serial_no := p.2.serial_no
               warehouse := p.2.warehouse
               expiry_date := p.2.expiry_date
               loan_waybill := sampleLoan.loan_waybill
               stock_entry_detail := p.2.stock_entry_detail })]) :=
  submit_positive_payload "SO-0001" sampleLoan
    { visible := true, inputs := [some 2, some 0] }
    (by decide) (by decide) (by decide)

/-- C1 counterexample input: a quantity-capture dialog that is on
screen with one positive quantity entered. -/
def cexConvState : ConvState := { visible := true, inputs := [some 2, some 0] }

/-- C1 counterexample: when the remote creation call fails (resolves
with no document id) the workflow is NOT back at quantity capture with
the dialog state untouched — the conversion dialog was hidden at submit
time, before the call, so the resulting state differs from the
pre-submit state and the dialog is closed. -/
theorem submit_failure_counterexample :
    (submit_and_resolve "SO-0001" sampleLoan cexConvState none).1.visible
        = false ∧
    cexConvState.visible = true ∧
    (submit_and_resolve "SO-0001" sampleLoan cexConvState none).1
        ≠ cexConvState := by
  decide

/-- C1 amended: on submit with a nonempty payload the dialog is hidden
before the remote call is issued; if the call then fails, the callback
does nothing — no navigation, no error rendering by this code, and the
quantity-capture dialog is not re-shown (its recorded inputs are simply
abandoned). -/
theorem submit_failure_no_recovery (so_name : String) (loan : Loan)
    (s : ConvState) (h : collect_conversion_data loan s.inputs ≠ []) :
    submit_and_resolve so_name loan s none
      = ({ s with visible := false },
         [Effect.createCall so_name loan.loan_waybill
           (collect_conversion_data loan s.inputs)]) := by
  simp [submit_and_resolve, create_draft_delivery_note_callback, h]

theorem submit_failure_no_recovery_witness :
    submit_and_resolve "SO-0001" sampleLoan cexConvState none
      = ({ cexConvState with visible := false },
         [Effect.createCall "SO-0001" sampleLoan.loan_waybill
           (collect_conversion_data sampleLoan cexConvState.inputs)]) :=
  submit_failure_no_recovery "SO-0001" sampleLoan cexConvState (by decide)

/-- C9: when the remote creation call succeeds with a (truthy) new
document id, the workflow ends with the dialog closed and exactly one
navigation effect, carrying that id to the Delivery Note form. -/
theorem submit_success_navigates_once (so_name : String) (loan : Loan)
    (s : ConvState) (docid : String)
    (h : collect_conversion_data loan s.inputs ≠ []) (hid : docid ≠ "") :
    (submit_and_resolve so_name loan s (some docid)).1.visible = false ∧
    ((submit_and_resolve so_name loan s (some docid)).2.filter isSetRoute)
      = [Effect.setRoute "Delivery Note" docid] := by
  simp [submit_and_resolve, create_draft_delivery_note_callback, h, hid,
    isSetRoute]

theorem submit_success_navigates_once_witness :
    (submit_and_resolve "SO-0001" sampleLoan cexConvState
        (some "DN-0042")).1.visible = false ∧
    ((submit_and_resolve "SO-0001" sampleLoan cexConvState
        (some "DN-0042")).2.filter isSetRoute)
      = [Effect.setRoute "Delivery Note" "DN-0042"] :=
  submit_success_navigates_once "SO-0001" sampleLoan cexConvState "DN-0042"
    (by decide) (by decide)

/-! ### Claims about workflow entry and selection -/

/-- C6: when the pending-loan fetch returns an empty list, the user is
shown the "No Pending Loans" message with a green (non-error)
indicator, and no selection dialog opens. -/
theorem empty_pending_loans_message (data : PendingData)
    (h : data.loan_waybills = []) :
    check_pending_loans_callback (some data)
      = [Effect.msgprintTitled "No Pending Loans"
          "No matching pending loan waybills were found for this Sales Order."
          "green"] := by
  simp [check_pending_loans_callback, h]

theorem empty_pending_loans_message_witness :
    check_pending_loans_callback
        (some { customer := "CUST-1", sales_order := "SO-0001",
                loan_waybills := [] })
      = [Effect.msgprintTitled "No Pending Loans"
          "No matching pending loan waybills were found for this Sales Order."
          "green"] :=
  empty_pending_loans_message
    { customer := "CUST-1", sales_order := "SO-0001", loan_waybills := [] }
    rfl

/-- A submitted, zero-delivered Sales Order with no customer set. -/
def cexSalesOrder : SalesOrderDoc :=
  { name := "SO-0001", docstatus := 1, customer := none, per_delivered := 0,
    custom_customer_delivery_note := none, custom_promissory_note := none }

/-- C7 counterexample: this document is finalized (`docstatus = 1`) and
not fully fulfilled (`per_delivered < 100`), yet the refresh handler
does not offer the "Check Pending Loan Waybills" button, because the
handler also requires a truthy `customer` field. -/
theorem check_pending_button_counterexample :
    (cexSalesOrder.docstatus = 1 ∧ cexSalesOrder.per_delivered < 100) ∧
    "Check Pending Loan Waybills" ∉ sales_order_refresh_buttons cexSalesOrder
    := by decide

/-- C7 amended: the "Check Pending Loan Waybills" button is offered on
a Sales Order exactly when the document is submitted (`docstatus = 1`),
its `customer` field is set (truthy), and its delivery progress is
below 100%. -/
theorem check_pending_button_iff (doc : SalesOrderDoc) :
    "Check Pending Loan Waybills" ∈ sales_order_refresh_buttons doc ↔
      (doc.docstatus = 1 ∧ truthyStr doc.customer = true ∧
        doc.per_delivered < 100) := by
  unfold sales_order_refresh_buttons
  split_ifs with h1 h2 h3 h4 h5 <;>
    simp_all [not_le]

/-- C10: confirming "Convert Selected" with no loan waybill selected is
a guarded no-op: the list dialog state is unchanged (not hidden), a
"please select" message is shown, and no conversion dialog opens. -/
theorem convert_selected_no_selection (s : ListDialogState)
    (h : get_selected_loan s = none) :
    list_dialog_primary_action s
      = (s, [Effect.msgprint "Please select a Loan Waybill to convert."]) := by
  simp [list_dialog_primary_action, h]

theorem convert_selected_no_selection_witness :
    list_dialog_primary_action
        { visible := true, loan_waybills := [sampleLoan], checked := some 3 }
      = ({ visible := true, loan_waybills := [sampleLoan], checked := some 3 },
         [Effect.msgprint "Please select a Loan Waybill to convert."]) :=
  convert_selected_no_selection
    { visible := true, loan_waybills := [sampleLoan], checked := some 3 }
    (by decide)

end NBS
